import Mathlib

/-!
# Adaptive RAG workflow engine — shallow embedding

This file embeds the control-flow core of the adaptive RAG system
(`src/adaptive_rag.py`, `src/models.py`, `src/retrieval.py`) in Lean and
proves properties of the node graph, the branch predicates and the
retry/termination policy.

External collaborators (router, retriever, web-search tool, graders,
generator) are opaque oracles: the embedding quantifies over an `Oracle`
structure holding one function per collaborator call, mirroring how every
decision point in the source is an external classification.

The Python `GraphState` is a dict whose keys may be absent at runtime
(`query_simple` starts without `retry_count`); absent keys are modelled
with `Option`, `state.get(k, d)` with `Option.getD`, and a `state[k]`
read of a missing key (Python `KeyError`) with `RagError.keyError`.
LangGraph merges the partial dict returned by a node into the state, so a
node function is modelled as a state-to-state map that leaves the fields
its dict omits unchanged.
-/

namespace AdaptiveRag

/-- A `langchain` `Document` as used by the pipeline: only `page_content`
is ever read (`models.py` annotates `documents: List[str]`, but at runtime
the list holds `Document` objects whose `page_content` is accessed). -/
structure Doc where
  page_content : String
deriving DecidableEq, Repr

/-- The `GraphState` from `models.py`: question, generation, documents,
retry_count. Fields other than `question` may be absent from the dict. -/
structure GraphState where
  question : String
  generation : Option String
  documents : Option (List Doc)
  retry_count : Option Nat
deriving DecidableEq, Repr

/-- Nodes of the compiled graph from `_build_graph`, plus the implicit
START and the terminal END. -/
inductive Node
  | start
  | webSearch
  | retrieve
  | gradeDocuments
  | generate
  | transformQuery
  | done
deriving DecidableEq, Repr

/-- Failures of the engine itself: a `KeyError` on a missing state field,
or a conditional-edge label outside the edge map (LangGraph raises). -/
inductive RagError
  | keyError
  | routingError
deriving DecidableEq, Repr

/-- One element of a Tavily search response list (`retrieval.py`):
either a dict (with optional `content` / `text` keys and a string
representation) or a non-dict value with its string representation. -/
inductive TavilyItem
  | dict (content : Option String) (text : Option String) (reprStr : String)
  | nonDict (reprStr : String)
deriving DecidableEq, Repr

/-- The shape of a Tavily response as discriminated by
`WebSearcher.search`: a list, a string, or anything else. -/
inductive TavilyResult
  | list (items : List TavilyItem)
  | str (s : String)
  | other (reprStr : String)
deriving DecidableEq, Repr

/-- The external collaborators, one field per call the core makes.
`web_search_tool` returns `Except` because the underlying Tavily call may
raise (the exception text is the payload); `retrieveDocs` stands for an
initialized retriever (the `NotInitialized` path is outside the graph). -/
structure Oracle where
  route : String → String
  retrieveDocs : String → List Doc
  web_search_tool : String → Except String TavilyResult
  genAnswer : String → List Doc → String
  docGrade : String → String → String
  hallGrade : String → String → String
  ansGrade : String → String → String

/-- Python `str(d)` of a Tavily list element. -/
def itemStr : TavilyItem → String
  | .dict _ _ reprStr => reprStr
  | .nonDict reprStr => reprStr

/-- The dict branch of `WebSearcher.search`: `d.get("content",
d.get("text", str(d)))` per item. Python applies `.get` to every element
once the first is a dict, so a later non-dict raises `AttributeError`
(modelled as the error case, caught by the surrounding `except`). -/
def dictGets : List TavilyItem → Except String (List String)
  | [] => .ok []
  | .dict content text reprStr :: rest =>
      (dictGets rest).map (fun tail => content.getD (text.getD reprStr) :: tail)
  | .nonDict reprStr :: _ =>
      .error ("AttributeError: object has no attribute get: " ++ reprStr)

/-- The response-format handling inside the `try` of `WebSearcher.search`:
list-of-dicts are joined by their contents, other lists by `str`, a bare
string passes through, anything else is `str`-converted. An empty list is
falsy in Python, so it takes the `str` branch and joins to `""`. -/
def searchBody : TavilyResult → Except String String
  | .list [] => .ok (String.intercalate "\n" (([] : List TavilyItem).map itemStr))
  | .list (first :: rest) =>
      match first with
      | .dict content text reprStr =>
          (dictGets (.dict content text reprStr :: rest)).map (String.intercalate "\n")
      | .nonDict _ => .ok (String.intercalate "\n" ((first :: rest).map itemStr))
  | .str s => .ok s
  | .other reprStr => .ok reprStr

/-- Model of `WebSearcher.search`: runs the tool and the format handling inside a
`try`; any exception is caught and converted to a placeholder Document
recording the failure. Total by construction — it never raises. -/
def search (tool : String → Except String TavilyResult) (question : String) : Doc :=
  match tool question with
  | .error e => ⟨"Web search failed: " ++ e⟩
  | .ok docs =>
      match searchBody docs with
      | .ok web_results => ⟨web_results⟩
      | .error e => ⟨"Web search failed: " ++ e⟩

/-- The join `"\n".join(doc.page_content for doc in documents)` from
`_grade_generation_v_documents_and_question`. -/
def docsText (documents : List Doc) : String :=
  String.intercalate "\n" (documents.map (fun doc => doc.page_content))

/-- The transformed question `_transform_query` computes:
`f"Please provide more details about: {question}"`. -/
def transformedQuestion (question : String) : String :=
  "Please provide more details about: " ++ question

/-- Node `_retrieve`: reads `question`, writes `documents` from the retriever
(the returned dict is `{"documents": ..., "question": question}`). -/
def retrieveNode (O : Oracle) (s : GraphState) : Except RagError GraphState :=
  .ok { s with documents := some (O.retrieveDocs s.question) }

/-- Node `_web_search`: writes `documents` to the singleton list holding the
search result. `WebSearcher.search` is total, so this node never fails. -/
def webSearchNode (O : Oracle) (s : GraphState) : Except RagError GraphState :=
  .ok { s with documents := some [search O.web_search_tool s.question] }

/-- The filtering loop of `_grade_documents`: append `doc` to the output
iff the relevance grade is the string `"yes"`, in input order. -/
def filterDocs (O : Oracle) (question : String) : List Doc → List Doc
  | [] => []
  | doc :: rest =>
      let score := O.docGrade question doc.page_content
      if score = "yes" then doc :: filterDocs O question rest
      else filterDocs O question rest

/-- Node `_grade_documents`: reads `state["documents"]` (KeyError if absent),
writes the filtered list back. -/
def gradeDocumentsNode (O : Oracle) (s : GraphState) : Except RagError GraphState :=
  match s.documents with
  | none => .error .keyError
  | some documents =>
      .ok { s with documents := some (filterDocs O s.question documents) }

/-- Node `_generate`: reads `state["documents"]` (KeyError if absent), writes
`generation` from the RAG chain. -/
def generateNode (O : Oracle) (s : GraphState) : Except RagError GraphState :=
  match s.documents with
  | none => .error .keyError
  | some documents =>
      .ok { s with generation := some (O.genAnswer s.question documents) }

/-- Node `_transform_query`: increments `retry_count` (read with
`state.get("retry_count", 0)`), computes a transformed question but
returns the original `question` unchanged (the source comment says
"For now, just return the same question"), and passes
`state.get("documents", [])` through. -/
def transformQueryNode (s : GraphState) : Except RagError GraphState :=
  let retry_count := s.retry_count.getD 0 + 1
  let _transformed_question := transformedQuestion s.question
  .ok { s with
        documents := some (s.documents.getD [])
        retry_count := some retry_count }

/-- Predicate `_route_question`: returns `"web_search"` or `"vectorstore"` per the
router label, and Python's implicit `None` for any other label. -/
def route_question (O : Oracle) (s : GraphState) : Option String :=
  let source := O.route s.question
  if source = "web_search" then some "web_search"
  else if source = "vectorstore" then some "vectorstore"
  else none

/-- Predicate `_decide_to_generate`: `"transform_query"` iff the filtered
`documents` list is empty, else `"generate"`. -/
def decide_to_generate (s : GraphState) : Except RagError String :=
  match s.documents with
  | none => .error .keyError
  | some filtered_documents =>
      if filtered_documents.isEmpty then .ok "transform_query"
      else .ok "generate"

/-- Predicate `_grade_generation_v_documents_and_question`: grade groundedness of
the generation against the joined documents; if grounded (`"yes"`), grade
adequacy against the question — adequate gives `"useful"`, inadequate
gives `"useful"` anyway once `retry_count >= 3` and `"not useful"`
otherwise; not grounded gives `"not supported"`. -/
def grade_generation (O : Oracle) (s : GraphState) : Except RagError String :=
  match s.documents, s.generation with
  | some documents, some generation =>
      let score := O.hallGrade (docsText documents) generation
      let retry_count := s.retry_count.getD 0
      if score = "yes" then
        let score2 := O.ansGrade s.question generation
        if score2 = "yes" then .ok "useful"
        else if retry_count ≥ 3 then .ok "useful"
        else .ok "not useful"
      else .ok "not supported"
  | _, _ => .error .keyError

/-- The START conditional-edge map from `_build_graph`:
`{"web_search": "web_search", "vectorstore": "retrieve"}`. -/
def routeStartEdge : String → Option Node
  | "web_search" => some .webSearch
  | "vectorstore" => some .retrieve
  | _ => none

/-- The `grade_documents` conditional-edge map from `_build_graph`. -/
def gradeDocsEdge : String → Option Node
  | "transform_query" => some .transformQuery
  | "generate" => some .generate
  | _ => none

/-- The `generate` conditional-edge map from `_build_graph`:
`{"not supported": "generate", "useful": END, "not useful":
"transform_query"}`. -/
def generateEdge : String → Option Node
  | "not supported" => some .generate
  | "useful" => some .done
  | "not useful" => some .transformQuery
  | _ => none

/-- One step of the compiled graph: run the node at the current position,
then follow the fixed or conditional edge out of it. A conditional-edge
label outside the map (including the `None` the route predicate returns
on an out-of-domain router label) is a fatal routing error. -/
def execStep (O : Oracle) : Node × GraphState → Except RagError (Node × GraphState)
  | (.start, s) =>
      match route_question O s with
      | none => .error .routingError
      | some label =>
          match routeStartEdge label with
          | none => .error .routingError
          | some n => .ok (n, s)
  | (.webSearch, s) =>
      match webSearchNode O s with
      | .error e => .error e
      | .ok s1 => .ok (.generate, s1)
  | (.retrieve, s) =>
      match retrieveNode O s with
      | .error e => .error e
      | .ok s1 => .ok (.gradeDocuments, s1)
  | (.gradeDocuments, s) =>
      match gradeDocumentsNode O s with
      | .error e => .error e
      | .ok s1 =>
          match decide_to_generate s1 with
          | .error e => .error e
          | .ok label =>
              match gradeDocsEdge label with
              | none => .error .routingError
              | some n => .ok (n, s1)
  | (.generate, s) =>
      match generateNode O s with
      | .error e => .error e
      | .ok s1 =>
          match grade_generation O s1 with
          | .error e => .error e
          | .ok label =>
              match generateEdge label with
              | none => .error .routingError
              | some n => .ok (n, s1)
  | (.transformQuery, s) =>
      match transformQueryNode s with
      | .error e => .error e
      | .ok s1 => .ok (.generate, s1)
  | (.done, s) => .ok (.done, s)

/-- Runs `n` steps of the graph executor. -/
def execN (O : Oracle) : Nat → Node × GraphState → Except RagError (Node × GraphState)
  | 0, c => .ok c
  | n + 1, c =>
      match execStep O c with
      | .error e => .error e
      | .ok c1 => execN O n c1

/-- The sequence of nodes entered during the first `n` steps, stopping at
END or on an error: the execution trace observed by streaming mode. -/
def runTrace (O : Oracle) : Nat → Node → GraphState → List Node
  | 0, _, _ => []
  | n + 1, nd, s =>
      if nd = Node.done then []
      else
        match execStep O (nd, s) with
        | .error _ => []
        | .ok (nd1, s1) => nd1 :: runTrace O n nd1 s1

/-- The initial state built by `query`:
`{"question": question, "retry_count": 0}`. -/
def queryInputs (question : String) : GraphState :=
  { question := question, generation := none, documents := none, retry_count := some 0 }

/-- The initial state built by `query_simple`: `{"question": question}`
— `retry_count` absent. -/
def querySimpleInputs (question : String) : GraphState :=
  { question := question, generation := none, documents := none, retry_count := none }

/-- The final answer both entry points extract:
`result.get("generation", "No answer generated")`. -/
def answerOf (r : Except RagError (Node × GraphState)) : Except RagError String :=
  r.map (fun c => c.2.generation.getD "No answer generated")

/-! ## Helper lemmas -/

/-- The filtering loop of `_grade_documents` is `List.filter` with the
affirmative-verdict test. -/
theorem filterDocs_eq_filter (O : Oracle) (q : String) (ds : List Doc) :
    filterDocs O q ds = ds.filter (fun d => O.docGrade q d.page_content == "yes") := by
  induction ds with
  | nil => rfl
  | cons d rest ih =>
      by_cases h : O.docGrade q d.page_content = "yes"
      · simp [filterDocs, List.filter, beq_iff_eq, h, ih]
      · have hb : (O.docGrade q d.page_content == "yes") = false := by
          simp [beq_iff_eq, h]
        simp [filterDocs, List.filter, h, hb, ih]

/-! ## Concrete collaborators and states for witnesses -/

/-- A concrete oracle: routes to the vectorstore, grades groundedness
affirmatively and adequacy negatively, with a failing web-search tool. -/
def oracleCeiling : Oracle where
  route _ := "vectorstore"
  retrieveDocs _ := [⟨"alpha"⟩, ⟨"beta"⟩]
  web_search_tool _ := .error "boom"
  genAnswer _ _ := "an answer"
  docGrade _ _ := "yes"
  hallGrade _ _ := "yes"
  ansGrade _ _ := "no"

/-- A concrete post-`generate` state with three reformulations spent. -/
def stateCeiling : GraphState :=
  { question := "q", generation := some "an answer",
    documents := some [⟨"alpha"⟩], retry_count := some 3 }

/-- A concrete state entering `transform_query`. -/
def stateTransform : GraphState :=
  { question := "tell me", generation := none,
    documents := some [⟨"d1"⟩], retry_count := some 0 }

/-! ## Claims -/

/-- C1: whenever the GradeGeneration predicate runs on a state whose
groundedness verdict is "yes", adequacy verdict is "no", and
`retry_count >= 3`, it returns "useful", and the `generate` edge map
sends "useful" to END (Done), never to TransformQuery: a
possibly-inadequate answer is accepted rather than looping. -/
theorem grade_generation_retry_ceiling (O : Oracle) (s : GraphState)
    (ds : List Doc) (g : String)
    (hdocs : s.documents = some ds) (hgen : s.generation = some g)
    (hhall : O.hallGrade (docsText ds) g = "yes")
    (hans : O.ansGrade s.question g = "no")
    (hretry : 3 ≤ s.retry_count.getD 0) :
    grade_generation O s = .ok "useful" ∧
    generateEdge "useful" = some Node.done ∧
    Node.done ≠ Node.transformQuery := by
  refine ⟨?_, rfl, by decide⟩
  simp only [grade_generation, hdocs, hgen, hhall, hans]
  norm_num [hretry]

/-- Witness for C1 at a concrete oracle and state. -/
theorem grade_generation_retry_ceiling_witness :
    grade_generation oracleCeiling stateCeiling = .ok "useful" ∧
    generateEdge "useful" = some Node.done ∧
    Node.done ≠ Node.transformQuery :=
  grade_generation_retry_ceiling oracleCeiling stateCeiling [⟨"alpha"⟩] "an answer"
    rfl rfl rfl rfl (by decide)

/-- C2 counterexample: at a concrete state, `transform_query` leaves the
`question` field exactly as it was (the output state differs from the
input only in `retry_count`), and the clarifying-instruction variant the
claim describes differs from that unchanged question — so the output
question is not a more-detailed rewritten variant. -/
theorem transform_query_question_unchanged_cex :
    transformQueryNode stateTransform = .ok { stateTransform with retry_count := some 1 } ∧
    stateTransform.question ≠ transformedQuestion stateTransform.question := by
  exact ⟨rfl, by decide⟩

/-- C2 amended: executing `transform_query` yields a state whose
`question` equals the input question unchanged (the more-detailed variant
"Please provide more details about: " ++ question is computed but
discarded), whose `documents` equal the input documents (defaulting to
empty when the field is absent), whose `generation` is untouched, and
whose `retry_count` is incremented to one more than its defaulted value. -/
theorem transform_query_semantics (s : GraphState) :
    transformQueryNode s = .ok { s with
      documents := some (s.documents.getD []),
      retry_count := some (s.retry_count.getD 0 + 1) } ∧
    (transformQueryNode s).map GraphState.question = .ok s.question := by
  exact ⟨rfl, rfl⟩

/-- C5: `grade_documents` returns exactly the subsequence of the input
passages whose relevance verdict is the affirmative "yes", iterating in
original order; the result is a sublist of the input (relative order
preserved, possibly empty). -/
theorem grade_documents_filter (O : Oracle) (s : GraphState) (ds : List Doc)
    (hdocs : s.documents = some ds) :
    gradeDocumentsNode O s = .ok { s with
      documents := some (ds.filter (fun d => O.docGrade s.question d.page_content == "yes")) } ∧
    (ds.filter (fun d => O.docGrade s.question d.page_content == "yes")).Sublist ds := by
  constructor
  · simp [gradeDocumentsNode, hdocs, filterDocs_eq_filter]
  · exact List.filter_sublist ds

/-- Witness for C5: one relevant and one irrelevant passage at a concrete
oracle keeping exactly the relevant one. -/
theorem grade_documents_filter_witness :
    gradeDocumentsNode oracleCeiling stateTransform = .ok { stateTransform with
      documents := some (([⟨"d1"⟩] : List Doc).filter
        (fun d => oracleCeiling.docGrade stateTransform.question d.page_content == "yes")) } ∧
    (([⟨"d1"⟩] : List Doc).filter
        (fun d => oracleCeiling.docGrade stateTransform.question d.page_content == "yes")).Sublist
      [⟨"d1"⟩] :=
  grade_documents_filter oracleCeiling stateTransform [⟨"d1"⟩] rfl

/-- C7: the Route predicate maps the router label "web_search" to the
WebSearch node and "vectorstore" to the Retrieve node; every other label
makes the execution step fail with a fatal routing error (the predicate
returns Python's None, which is outside the edge map), with no retry or
fallback. -/
theorem route_question_contract (O : Oracle) (s : GraphState) :
    execStep O (.start, s) =
      (if O.route s.question = "web_search" then .ok (.webSearch, s)
       else if O.route s.question = "vectorstore" then .ok (.retrieve, s)
       else .error .routingError) := by
  by_cases h1 : O.route s.question = "web_search"
  · simp [execStep, route_question, h1, routeStartEdge]
  · by_cases h2 : O.route s.question = "vectorstore"
    · simp [execStep, route_question, h1, h2, routeStartEdge]
    · simp [execStep, route_question, h1, h2]

/-- If every groundedness verdict is "no", stepping from `generate` only
overwrites `generation` and returns to `generate`: the regenerate
self-loop preserves every other field. -/
theorem generate_selfloop (O : Oracle) (hO : ∀ d t, O.hallGrade d t = "no") :
    ∀ (n : Nat) (s : GraphState) (ds : List Doc), s.documents = some ds →
    ∃ g1, execN O n (Node.generate, s) = .ok (Node.generate, { s with generation := g1 }) := by
  intro n
  induction n with
  | zero => intro s ds _; exact ⟨s.generation, rfl⟩
  | succ n ih =>
      intro s ds hdocs
      have hstep : execStep O (Node.generate, s) =
          .ok (Node.generate, { s with generation := some (O.genAnswer s.question ds) }) := by
        have hcond : ¬ O.hallGrade (docsText ds) (O.genAnswer s.question ds) = "yes" := by
          rw [hO]; decide
        simp [execStep, generateNode, hdocs, grade_generation, hcond, generateEdge]
      obtain ⟨g1, hg1⟩ := ih { s with generation := some (O.genAnswer s.question ds) } ds hdocs
      exact ⟨g1, by simp [execN, hstep, hg1]⟩

/-- A concrete oracle whose groundedness verdict is always "no". -/
def oracleUngrounded : Oracle :=
  { oracleCeiling with hallGrade := fun _ _ => "no" }

/-- C3: on a state whose groundedness verdict is "no", the GradeGeneration
predicate returns "not supported" for every adequacy grader (the adequacy
grader is not consulted) and for every `retry_count` (none is required
below 3); the edge map sends "not supported" back to Generate; and when
every groundedness verdict is "no", arbitrarily many steps from Generate
stay at Generate with `retry_count` and `documents` unchanged — the
self-loop is unbounded and consumes no retry budget. -/
theorem not_supported_loop (O : Oracle) (s : GraphState) (ds : List Doc) (g : String)
    (hdocs : s.documents = some ds) (hgen : s.generation = some g)
    (hhall : O.hallGrade (docsText ds) g = "no") :
    (∀ a : String → String → String,
        grade_generation { O with ansGrade := a } s = .ok "not supported") ∧
    generateEdge "not supported" = some Node.generate ∧
    (∀ n : Nat, (∀ d t, O.hallGrade d t = "no") →
        ∃ s1, execN O n (Node.generate, s) = .ok (Node.generate, s1) ∧
          s1.retry_count = s.retry_count ∧ s1.documents = s.documents) := by
  refine ⟨?_, rfl, ?_⟩
  · intro a
    have hno : ¬ O.hallGrade (docsText ds) g = "yes" := by
      rw [hhall]; decide
    simp [grade_generation, hdocs, hgen, hno]
  · intro n hO
    obtain ⟨g1, hg1⟩ := generate_selfloop O hO n s ds hdocs
    exact ⟨{ s with generation := g1 }, hg1, rfl, rfl⟩

/-- Witness for C3 at a concrete always-ungrounded oracle and state. -/
theorem not_supported_loop_witness :
    (∀ a : String → String → String,
        grade_generation { oracleUngrounded with ansGrade := a } stateCeiling =
          .ok "not supported") ∧
    generateEdge "not supported" = some Node.generate ∧
    (∀ n : Nat, (∀ d t, oracleUngrounded.hallGrade d t = "no") →
        ∃ s1, execN oracleUngrounded n (Node.generate, stateCeiling) =
            .ok (Node.generate, s1) ∧
          s1.retry_count = stateCeiling.retry_count ∧
          s1.documents = stateCeiling.documents) :=
  not_supported_loop oracleUngrounded stateCeiling [⟨"alpha"⟩] "an answer" rfl rfl rfl

/-- C4: across one executor step, `retry_count` never decreases; the
`transform_query` node sets it to exactly one more than its defaulted
current value, every other node leaves the field untouched, and the
`query` entry point initializes it to 0. -/
theorem retry_count_monotone (O : Oracle) (nd : Node) (s : GraphState)
    (nd1 : Node) (s1 : GraphState)
    (hstep : execStep O (nd, s) = .ok (nd1, s1)) :
    (queryInputs s.question).retry_count = some 0 ∧
    s.retry_count.getD 0 ≤ s1.retry_count.getD 0 ∧
    (nd = Node.transformQuery → s1.retry_count = some (s.retry_count.getD 0 + 1)) ∧
    (nd ≠ Node.transformQuery → s1.retry_count = s.retry_count) := by
  have hretry : s1.retry_count =
      (if nd = Node.transformQuery then some (s.retry_count.getD 0 + 1)
       else s.retry_count) := by
    cases nd with
    | start =>
        rcases hr : route_question O s with _ | label
        · simp [execStep, hr] at hstep
        · rcases he : routeStartEdge label with _ | n
          · simp [execStep, hr, he] at hstep
          · simp only [execStep, hr, he] at hstep
            simp only [Except.ok.injEq, Prod.mk.injEq] at hstep
            simp [← hstep.2]
    | webSearch =>
        simp only [execStep, webSearchNode, Except.bind, bind,
          Except.ok.injEq, Prod.mk.injEq] at hstep
        simp [← hstep.2]
    | retrieve =>
        simp only [execStep, retrieveNode, Except.bind, bind,
          Except.ok.injEq, Prod.mk.injEq] at hstep
        simp [← hstep.2]
    | gradeDocuments =>
        rcases hd : s.documents with _ | ds
        · simp [execStep, gradeDocumentsNode, hd] at hstep
        · by_cases he : (filterDocs O s.question ds).isEmpty
          · simp [execStep, gradeDocumentsNode, hd, decide_to_generate, he,
              gradeDocsEdge] at hstep
            simp [← hstep.2]
          · simp [execStep, gradeDocumentsNode, hd, decide_to_generate, he,
              gradeDocsEdge] at hstep
            simp [← hstep.2]
    | generate =>
        rcases hd : s.documents with _ | ds
        · simp [execStep, generateNode, hd] at hstep
        · rcases hl : grade_generation O
              { s with generation := some (O.genAnswer s.question ds) } with e | label
          · rw [hd] at hl
            simp [execStep, generateNode, hd, hl] at hstep
          · rw [hd] at hl
            rcases hedge : generateEdge label with _ | n
            · simp [execStep, generateNode, hd, hl, hedge] at hstep
            · simp only [execStep, generateNode, hd, hl, hedge,
                Except.ok.injEq, Prod.mk.injEq] at hstep
              simp [← hstep.2]
    | transformQuery =>
        simp only [execStep, transformQueryNode, Except.bind, bind,
          Except.ok.injEq, Prod.mk.injEq] at hstep
        simp [← hstep.2]
    | done =>
        simp only [execStep, Except.ok.injEq, Prod.mk.injEq] at hstep
        simp [← hstep.2]
  refine ⟨rfl, ?_, ?_, ?_⟩
  · rw [hretry]
    by_cases h : nd = Node.transformQuery <;> simp [h]
  · intro h; rw [hretry, if_pos h]
  · intro h; rw [hretry, if_neg h]

/-- The state produced by the concrete `transform_query` step used to
witness C4. -/
def stateAfterTransform : GraphState :=
  { stateTransform with documents := some [⟨"d1"⟩], retry_count := some 1 }

/-- Witness for C4 at a concrete `transform_query` step. -/
theorem retry_count_monotone_witness :
    (queryInputs stateTransform.question).retry_count = some 0 ∧
    stateTransform.retry_count.getD 0 ≤ stateAfterTransform.retry_count.getD 0 ∧
    (Node.transformQuery = Node.transformQuery →
      stateAfterTransform.retry_count = some (stateTransform.retry_count.getD 0 + 1)) ∧
    (Node.transformQuery ≠ Node.transformQuery →
      stateAfterTransform.retry_count = stateTransform.retry_count) :=
  retry_count_monotone oracleCeiling Node.transformQuery stateTransform
    Node.generate stateAfterTransform rfl

/-- A concrete oracle all of whose graders return the out-of-domain
verdict "maybe". -/
def oracleMaybe : Oracle :=
  { oracleCeiling with
    docGrade := fun _ _ => "maybe"
    hallGrade := fun _ _ => "maybe"
    ansGrade := fun _ _ => "maybe" }

/-- A concrete oracle whose adequacy grader returns the out-of-domain
verdict "maybe" while groundedness is "yes". -/
def oracleMaybeAns : Oracle :=
  { oracleCeiling with ansGrade := fun _ _ => "maybe" }

/-- A concrete post-`generate` state with no reformulations spent. -/
def stateRetry0 : GraphState :=
  { stateCeiling with retry_count := some 0 }

/-- C8 counterexample: the verdict "maybe", outside the two-value
yes/no domain, is not rejected anywhere in the core — `grade_documents`
silently drops the passage exactly as for "no", the groundedness check
silently routes "not supported" exactly as for "no", and the adequacy
check silently routes "not useful" exactly as for "no". -/
theorem out_of_domain_verdict_cex :
    gradeDocumentsNode oracleMaybe stateTransform =
      .ok { stateTransform with documents := some [] } ∧
    grade_generation oracleMaybe stateCeiling = .ok "not supported" ∧
    grade_generation oracleMaybeAns stateRetry0 = .ok "not useful" := by
  refine ⟨?_, ?_, ?_⟩ <;> rfl

/-- C8 amended: a grader verdict string outside the two-value domain is
not a rejected contract violation; each of the three grader checks only
compares the verdict against "yes", so every other string is silently
interpreted as the negative verdict — the passage is dropped, the
generation is deemed ungrounded ("not supported"), and the answer is
deemed inadequate ("not useful") under the retry ceiling. -/
theorem out_of_domain_verdict_negative (O : Oracle) (s : GraphState)
    (ds : List Doc) (g : String)
    (hdocs : s.documents = some ds) (hgen : s.generation = some g) :
    ((∀ d ∈ ds, O.docGrade s.question d.page_content ≠ "yes") →
      gradeDocumentsNode O s = .ok { s with documents := some [] }) ∧
    (O.hallGrade (docsText ds) g ≠ "yes" →
      grade_generation O s = .ok "not supported") ∧
    (O.hallGrade (docsText ds) g = "yes" → O.ansGrade s.question g ≠ "yes" →
      s.retry_count.getD 0 < 3 → grade_generation O s = .ok "not useful") := by
  refine ⟨?_, ?_, ?_⟩
  · intro hall
    have hnil : filterDocs O s.question ds = [] := by
      rw [filterDocs_eq_filter, List.filter_eq_nil_iff]
      intro d hd
      simp [beq_iff_eq, hall d hd]
    simp [gradeDocumentsNode, hdocs, hnil]
  · intro h
    simp [grade_generation, hdocs, hgen, h]
  · intro h1 h2 h3
    have h4 : ¬ 3 ≤ s.retry_count.getD 0 := by omega
    simp [grade_generation, hdocs, hgen, h1, h2, h4]

/-- Witness for C8's amended claim at the concrete "maybe" oracle. -/
theorem out_of_domain_verdict_negative_witness :
    ((∀ d ∈ ([⟨"alpha"⟩] : List Doc),
        oracleMaybe.docGrade stateCeiling.question d.page_content ≠ "yes") →
      gradeDocumentsNode oracleMaybe stateCeiling =
        .ok { stateCeiling with documents := some [] }) ∧
    (oracleMaybe.hallGrade (docsText [⟨"alpha"⟩]) "an answer" ≠ "yes" →
      grade_generation oracleMaybe stateCeiling = .ok "not supported") ∧
    (oracleMaybe.hallGrade (docsText [⟨"alpha"⟩]) "an answer" = "yes" →
      oracleMaybe.ansGrade stateCeiling.question "an answer" ≠ "yes" →
      stateCeiling.retry_count.getD 0 < 3 →
      grade_generation oracleMaybe stateCeiling = .ok "not useful") :=
  out_of_domain_verdict_negative oracleMaybe stateCeiling [⟨"alpha"⟩] "an answer" rfl rfl

/-- C9: `WebSearcher.search` is a total function — the web-search node
always succeeds with a singleton documents list — and when the
underlying web-search call fails with any internal exception, the
returned single passage records the failure reason, so the pipeline
continues rather than crashing. -/
theorem web_search_degrades (tool : String → Except String TavilyResult)
    (q e : String) (htool : tool q = .error e) :
    search tool q = ⟨"Web search failed: " ++ e⟩ ∧
    (∀ (O : Oracle) (s : GraphState),
      webSearchNode O s =
        .ok { s with documents := some [search O.web_search_tool s.question] }) := by
  exact ⟨by simp [search, htool], fun O s => rfl⟩

/-- Witness for C9 at a concrete failing web-search tool. -/
theorem web_search_degrades_witness :
    search oracleCeiling.web_search_tool "q" = ⟨"Web search failed: " ++ "boom"⟩ ∧
    (∀ (O : Oracle) (s : GraphState),
      webSearchNode O s =
        .ok { s with documents := some [search O.web_search_tool s.question] }) :=
  web_search_degrades oracleCeiling.web_search_tool "q" "boom" rfl

/-- The two evidence-source nodes. -/
def isSourceNode : Node → Bool
  | .webSearch => true
  | .retrieve => true
  | _ => false

/-- Destinations of the `generate` conditional edge. -/
theorem generateEdge_cases (label : String) (nd1 : Node)
    (h : generateEdge label = some nd1) :
    nd1 = Node.generate ∨ nd1 = Node.done ∨ nd1 = Node.transformQuery := by
  unfold generateEdge at h
  split at h <;> simp_all

/-- Destinations of the `grade_documents` conditional edge. -/
theorem gradeDocsEdge_cases (label : String) (nd1 : Node)
    (h : gradeDocsEdge label = some nd1) :
    nd1 = Node.transformQuery ∨ nd1 = Node.generate := by
  unfold gradeDocsEdge at h
  split at h <;> simp_all

/-- Only the implicit START can dispatch to a source node: a step from
any other node never enters `web_search`, `retrieve`, or START. -/
theorem step_no_source (O : Oracle) (nd : Node) (s : GraphState)
    (nd1 : Node) (s1 : GraphState)
    (hstep : execStep O (nd, s) = .ok (nd1, s1)) (hnd : nd ≠ Node.start) :
    nd1 ≠ Node.webSearch ∧ nd1 ≠ Node.retrieve ∧ nd1 ≠ Node.start := by
  cases nd with
  | start => exact absurd rfl hnd
  | webSearch =>
      simp only [execStep, webSearchNode, Except.ok.injEq, Prod.mk.injEq] at hstep
      rw [← hstep.1]; decide
  | retrieve =>
      simp only [execStep, retrieveNode, Except.ok.injEq, Prod.mk.injEq] at hstep
      rw [← hstep.1]; decide
  | gradeDocuments =>
      rcases hd : s.documents with _ | ds
      · simp [execStep, gradeDocumentsNode, hd] at hstep
      · by_cases he : (filterDocs O s.question ds).isEmpty
        · simp [execStep, gradeDocumentsNode, hd, decide_to_generate, he,
            gradeDocsEdge] at hstep
          rw [← hstep.1]; decide
        · simp [execStep, gradeDocumentsNode, hd, decide_to_generate, he,
            gradeDocsEdge] at hstep
          rw [← hstep.1]; decide
  | generate =>
      rcases hd : s.documents with _ | ds
      · simp [execStep, generateNode, hd] at hstep
      · rcases hl : grade_generation O
            { s with generation := some (O.genAnswer s.question ds) } with e | label
        · rw [hd] at hl
          simp [execStep, generateNode, hd, hl] at hstep
        · rw [hd] at hl
          rcases hedge : generateEdge label with _ | n1
          · simp [execStep, generateNode, hd, hl, hedge] at hstep
          · simp only [execStep, generateNode, hd, hl, hedge,
              Except.ok.injEq, Prod.mk.injEq] at hstep
            rcases generateEdge_cases label n1 hedge with h | h | h <;>
              rw [← hstep.1, h] <;> decide
  | transformQuery =>
      simp only [execStep, transformQueryNode, Except.ok.injEq, Prod.mk.injEq] at hstep
      rw [← hstep.1]; decide
  | done =>
      simp only [execStep, Except.ok.injEq, Prod.mk.injEq] at hstep
      rw [← hstep.1]; decide

/-- The trace from any node other than START never visits a source node
again. -/
theorem trace_no_source (O : Oracle) :
    ∀ (m : Nat) (nd : Node) (s : GraphState), nd ≠ Node.start →
    ∀ x ∈ runTrace O m nd s, x ≠ Node.webSearch ∧ x ≠ Node.retrieve := by
  intro m
  induction m with
  | zero => intro nd s _ x hx; simp [runTrace] at hx
  | succ m ih =>
      intro nd s hnd x hx
      by_cases hdone : nd = Node.done
      · simp [runTrace, hdone] at hx
      · rcases hstep : execStep O (nd, s) with e | c1
        · simp [runTrace, hdone, hstep] at hx
        · obtain ⟨nd1, s1⟩ := c1
          have hns := step_no_source O nd s nd1 s1 hstep hnd
          simp only [runTrace, if_neg hdone, hstep, List.mem_cons] at hx
          rcases hx with rfl | hx
          · exact ⟨hns.1, hns.2.1⟩
          · exact ih nd1 s1 hns.2.2 x hx

/-- C6: in every execution of the compiled graph, for any question and
any oracle answers, exactly one of the `retrieve` and `web_search` nodes
appears in the trace before the first execution of `generate` — source
routing is exclusive. -/
theorem routing_exclusive (O : Oracle) (s : GraphState) (n : Nat)
    (hgen : Node.generate ∈ runTrace O n Node.start s) :
    ((runTrace O n Node.start s).takeWhile
        (fun nd => nd != Node.generate)).countP isSourceNode = 1 := by
  rcases n with _ | n
  · simp [runTrace] at hgen
  · by_cases h1 : O.route s.question = "web_search"
    · have hstep : execStep O (Node.start, s) = .ok (Node.webSearch, s) := by
        simp [execStep, route_question, h1, routeStartEdge]
      have htr : runTrace O (n + 1) Node.start s =
          Node.webSearch :: runTrace O n Node.webSearch s := by
        simp [runTrace, hstep]
      rw [htr]
      have hrest : ∀ x ∈ (runTrace O n Node.webSearch s).takeWhile
          (fun nd => nd != Node.generate), ¬ isSourceNode x = true := by
        intro x hx
        have hmem := ( List.takeWhile_prefix (l := runTrace O n Node.webSearch s)
          (fun nd => nd != Node.generate)).subset hx
        have := trace_no_source O n Node.webSearch s (by decide) x hmem
        cases x <;> simp [isSourceNode] at this ⊢
      rw [List.takeWhile_cons]
      simp only [show (Node.webSearch != Node.generate) = true by decide, if_pos]
      rw [List.countP_cons]
      rw [List.countP_eq_zero.mpr hrest]
      decide
    · by_cases h2 : O.route s.question = "vectorstore"
      · have hstep : execStep O (Node.start, s) = .ok (Node.retrieve, s) := by
          simp [execStep, route_question, h1, h2, routeStartEdge]
        have htr : runTrace O (n + 1) Node.start s =
            Node.retrieve :: runTrace O n Node.retrieve s := by
          simp [runTrace, hstep]
        rw [htr]
        have hrest : ∀ x ∈ (runTrace O n Node.retrieve s).takeWhile
            (fun nd => nd != Node.generate), ¬ isSourceNode x = true := by
          intro x hx
          have hmem := ( List.takeWhile_prefix (l := runTrace O n Node.retrieve s)
            (fun nd => nd != Node.generate)).subset hx
          have := trace_no_source O n Node.retrieve s (by decide) x hmem
          cases x <;> simp [isSourceNode] at this ⊢
        rw [List.takeWhile_cons]
        simp only [show (Node.retrieve != Node.generate) = true by decide, if_pos]
        rw [List.countP_cons]
        rw [List.countP_eq_zero.mpr hrest]
        decide
      · have hstep : execStep O (Node.start, s) = .error RagError.routingError := by
          simp [execStep, route_question, h1, h2]
        simp [runTrace, hstep] at hgen

/-- Witness for C6 on a concrete vectorstore-routed run that reaches
`generate` in three steps. -/
theorem routing_exclusive_witness :
    Node.generate ∈ runTrace oracleCeiling 3 Node.start (querySimpleInputs "q") ∧
    ((runTrace oracleCeiling 3 Node.start (querySimpleInputs "q")).takeWhile
        (fun nd => nd != Node.generate)).countP isSourceNode = 1 :=
  ⟨by decide, routing_exclusive oracleCeiling (querySimpleInputs "q") 3 (by decide)⟩

/-- States equal up to the representation of an absent `retry_count`:
every read of the field defaults it to 0, so `none` and `some 0` are
interchangeable. -/
def stateEquiv (s t : GraphState) : Prop :=
  s.question = t.question ∧ s.generation = t.generation ∧
  s.documents = t.documents ∧ s.retry_count.getD 0 = t.retry_count.getD 0

/-- Executor results equal up to `stateEquiv` on the carried state. -/
def resultEquiv : Except RagError (Node × GraphState) →
    Except RagError (Node × GraphState) → Prop
  | .error e1, .error e2 => e1 = e2
  | .ok (n1, s1), .ok (n2, t1) => n1 = n2 ∧ stateEquiv s1 t1
  | _, _ => False

/-- The GradeGeneration predicate reads `retry_count` only through its
default, so it agrees on equivalent states. -/
theorem grade_generation_congr (O : Oracle) (s t : GraphState)
    (h : stateEquiv s t) : grade_generation O s = grade_generation O t := by
  obtain ⟨hq, hg, hd, hr⟩ := h
  simp only [grade_generation, hq, hg, hd, hr]

/-- One executor step preserves `stateEquiv`, taking the same transition
and failing identically on equivalent states. -/
theorem execStep_equiv (O : Oracle) (nd : Node) (s t : GraphState)
    (h : stateEquiv s t) :
    resultEquiv (execStep O (nd, s)) (execStep O (nd, t)) := by
  obtain ⟨hq, hg, hd, hr⟩ := h
  cases nd with
  | start =>
      by_cases h1 : O.route t.question = "web_search"
      · simp [execStep, route_question, hq, h1, routeStartEdge, resultEquiv,
          stateEquiv, hg, hd, hr]
      · by_cases h2 : O.route t.question = "vectorstore"
        · simp [execStep, route_question, hq, h1, h2, routeStartEdge, resultEquiv,
            stateEquiv, hg, hd, hr]
        · simp [execStep, route_question, hq, h1, h2, resultEquiv]
  | webSearch =>
      simp [execStep, webSearchNode, resultEquiv, stateEquiv, hq, hg, hd, hr]
  | retrieve =>
      simp [execStep, retrieveNode, resultEquiv, stateEquiv, hq, hg, hd, hr]
  | gradeDocuments =>
      rcases hdd : t.documents with _ | ds
      · rw [hdd] at hd
        simp [execStep, gradeDocumentsNode, hd, hdd, resultEquiv]
      · rw [hdd] at hd
        by_cases he : (filterDocs O t.question ds).isEmpty
        · simp [execStep, gradeDocumentsNode, hd, hdd, decide_to_generate, hq, he,
            gradeDocsEdge, resultEquiv, stateEquiv, hg, hr]
        · simp [execStep, gradeDocumentsNode, hd, hdd, decide_to_generate, hq, he,
            gradeDocsEdge, resultEquiv, stateEquiv, hg, hr]
  | generate =>
      rcases hdd : t.documents with _ | ds
      · rw [hdd] at hd
        simp [execStep, generateNode, hd, hdd, resultEquiv]
      · rw [hdd] at hd
        have hcongr : grade_generation O
            (GraphState.mk t.question (some (O.genAnswer t.question ds))
              (some ds) s.retry_count) =
            grade_generation O
              (GraphState.mk t.question (some (O.genAnswer t.question ds))
                (some ds) t.retry_count) :=
          grade_generation_congr O _ _ ⟨rfl, rfl, rfl, hr⟩
        rcases hl : grade_generation O
            (GraphState.mk t.question (some (O.genAnswer t.question ds))
              (some ds) t.retry_count) with e | label
        · simp [execStep, generateNode, hd, hdd, hq, hcongr, hl, resultEquiv]
        · rcases hedge : generateEdge label with _ | n1
          · simp [execStep, generateNode, hd, hdd, hq, hcongr, hl, hedge, resultEquiv]
          · simp [execStep, generateNode, hd, hdd, hq, hcongr, hl, hedge, resultEquiv,
              stateEquiv, hg, hr]
  | transformQuery =>
      simp [execStep, transformQueryNode, resultEquiv, stateEquiv, hq, hg, hd, hr]
  | done =>
      simp [execStep, resultEquiv, stateEquiv, hq, hg, hd, hr]

/-- Running `n` executor steps preserves `stateEquiv`. -/
theorem execN_equiv (O : Oracle) :
    ∀ (n : Nat) (nd : Node) (s t : GraphState), stateEquiv s t →
    resultEquiv (execN O n (nd, s)) (execN O n (nd, t)) := by
  intro n
  induction n with
  | zero => intro nd s t h; exact ⟨rfl, h⟩
  | succ n ih =>
      intro nd s t h
      have hstep := execStep_equiv O nd s t h
      rcases h1 : execStep O (nd, s) with e1 | c1 <;>
        rcases h2 : execStep O (nd, t) with e2 | c2 <;>
        rw [h1, h2] at hstep
      · simp only [execN, h1, h2]
        simpa [resultEquiv] using hstep
      · exact absurd hstep (by obtain ⟨n2, t1⟩ := c2; simp [resultEquiv])
      · exact absurd hstep (by obtain ⟨n1, s1⟩ := c1; simp [resultEquiv])
      · obtain ⟨n1, s1⟩ := c1
        obtain ⟨n2, t1⟩ := c2
        obtain ⟨hnd, hst⟩ := hstep
        subst hnd
        simp only [execN, h1, h2]
        exact ih n1 s1 t1 hst

/-- Node traces agree on equivalent states. -/
theorem runTrace_equiv (O : Oracle) :
    ∀ (n : Nat) (nd : Node) (s t : GraphState), stateEquiv s t →
    runTrace O n nd s = runTrace O n nd t := by
  intro n
  induction n with
  | zero => intro nd s t _; rfl
  | succ n ih =>
      intro nd s t h
      by_cases hdone : nd = Node.done
      · simp [runTrace, hdone]
      · have hstep := execStep_equiv O nd s t h
        rcases h1 : execStep O (nd, s) with e1 | c1 <;>
          rcases h2 : execStep O (nd, t) with e2 | c2 <;>
          rw [h1, h2] at hstep
        · simp [runTrace, hdone, h1, h2]
        · exact absurd hstep (by obtain ⟨n2, t1⟩ := c2; simp [resultEquiv])
        · exact absurd hstep (by obtain ⟨n1, s1⟩ := c1; simp [resultEquiv])
        · obtain ⟨n1, s1⟩ := c1
          obtain ⟨n2, t1⟩ := c2
          obtain ⟨hnd, hst⟩ := hstep
          subst hnd
          simp only [runTrace, if_neg hdone, h1, h2]
          exact congrArg (List.cons n1) (ih n1 s1 t1 hst)

/-- C10: an execution started from the `query_simple` initial state
(which omits `retry_count`) is indistinguishable from one started from
the `query` initial state (`retry_count` explicitly 0): for every oracle
and every step count, the node traces coincide and the extracted final
answer `result.get("generation", "No answer generated")` coincides. -/
theorem query_simple_default_equiv (O : Oracle) (q : String) (n : Nat) :
    runTrace O n Node.start (queryInputs q) =
      runTrace O n Node.start (querySimpleInputs q) ∧
    answerOf (execN O n (Node.start, queryInputs q)) =
      answerOf (execN O n (Node.start, querySimpleInputs q)) := by
  have hequiv : stateEquiv (queryInputs q) (querySimpleInputs q) :=
    ⟨rfl, rfl, rfl, rfl⟩
  refine ⟨runTrace_equiv O n Node.start _ _ hequiv, ?_⟩
  have h := execN_equiv O n Node.start _ _ hequiv
  rcases h1 : execN O n (Node.start, queryInputs q) with e1 | c1 <;>
    rcases h2 : execN O n (Node.start, querySimpleInputs q) with e2 | c2 <;>
    rw [h1, h2] at h
  · simp only [answerOf, Except.map]
    simp only [resultEquiv] at h
    rw [h]
  · exact absurd h (by obtain ⟨n2, t1⟩ := c2; simp [resultEquiv])
  · exact absurd h (by obtain ⟨n1, s1⟩ := c1; simp [resultEquiv])
  · obtain ⟨n1, s1⟩ := c1
    obtain ⟨n2, t1⟩ := c2
    obtain ⟨hnd, hst⟩ := h
    simp only [answerOf, Except.map]
    rw [hst.2.1]

end AdaptiveRag
